import Mathlib

/-!
Shallow embedding of the VOL20-to-GLM bridge core (bridge2glm.py,
midi_constants.py, glm_core/actions.py, acceleration.py,
PowerOnOff/glm_manager.py), together with theorems settling the frozen
claims about it.

Modelling conventions:
* Python `float` timestamps and durations are modelled as exact rationals
  (`ℚ`); MIDI values and volume arithmetic as `ℤ`; CC numbers as `ℕ`.
* Mutation of the `GlmController` singleton is modelled by explicit state
  passing: each method becomes a function `GlmController → ... → GlmController × result`.
* Subscriber notification (`_notify_state_change`) is modelled by returning
  the snapshot delivered to callbacks (`Option StateSnapshot`; `none` means
  the debounce suppressed the notification).  The callback list itself is
  irrelevant to the claims.
* Outgoing MIDI traffic is modelled as a list of `(cc, value)` pairs.
-/

namespace VolBridge

/-! ## Constants (midi_constants.py and bridge2glm.py) -/

/-- MAX_EVENT_AGE = 2.0 seconds (bridge2glm.py). -/
def MAX_EVENT_AGE : ℚ := 2

/-- POWER_SETTLING_TIME = 2.0 seconds. -/
def POWER_SETTLING_TIME : ℚ := 2

/-- POWER_COOLDOWN_TIME = 5.0 seconds. -/
def POWER_COOLDOWN_TIME : ℚ := 5

/-- POWER_TOTAL_LOCKOUT = settling + cooldown = 7 seconds. -/
def POWER_TOTAL_LOCKOUT : ℚ := POWER_SETTLING_TIME + POWER_COOLDOWN_TIME

/-- CC 20: absolute volume. -/
def GLM_VOLUME_ABS : ℕ := 20

/-- CC 21: momentary volume increment. -/
def GLM_VOL_UP_CC : ℕ := 21

/-- CC 22: momentary volume decrement. -/
def GLM_VOL_DOWN_CC : ℕ := 22

/-- CC 23: mute toggle. -/
def GLM_MUTE_CC : ℕ := 23

/-- CC 24: dim toggle. -/
def GLM_DIM_CC : ℕ := 24

/-- Power detection pattern: MUTE, VOL, DIM, MUTE, VOL. -/
def POWER_PATTERN : List ℕ := [GLM_MUTE_CC, GLM_VOLUME_ABS, GLM_DIM_CC, GLM_MUTE_CC, GLM_VOLUME_ABS]

/-- POWER_PATTERN_WINDOW = 0.5 seconds. -/
def POWER_PATTERN_WINDOW : ℚ := 1/2

/-- POWER_PATTERN_MIN_SPAN = 0.05 seconds. -/
def POWER_PATTERN_MIN_SPAN : ℚ := 1/20

/-- POWER_STARTUP_WINDOW = 3.0 seconds. -/
def POWER_STARTUP_WINDOW : ℚ := 3

/-! ## State snapshot (GlmController.get_state) -/

/-- The dictionary returned by `GlmController.get_state` and delivered to
state callbacks. -/
structure StateSnapshot where
  volume : ℤ
  volumeDb : ℤ
  mute : Bool
  dim : Bool
  power : Bool
  powerTransitioning : Bool
  powerSettlingRemaining : ℚ
  powerCooldown : Bool
  powerCooldownRemaining : ℚ
deriving DecidableEq, Repr

/-! ## GlmController state -/

/-- The fields of the `GlmController` singleton (bridge2glm.py).
`volumeInit` models `_volume_initialized`; `lastNotified` models
`_last_notified_state` (the debounce cache). -/
structure GlmController where
  volume : ℤ
  pendingVolume : Option ℤ
  mute : Bool
  dim : Bool
  power : Bool
  volumeInit : Bool
  powerTransitionStart : ℚ
  powerSettling : Bool
  powerTarget : Option Bool
  lastNotified : Option StateSnapshot
deriving DecidableEq, Repr

namespace GlmController

/-- Model of `GlmController.__init__` defaults. -/
def mk0 : GlmController :=
  { volume := 0, pendingVolume := none, mute := false, dim := false,
    power := true, volumeInit := false, powerTransitionStart := 0,
    powerSettling := false, powerTarget := none, lastNotified := none }

/-- Python `round(x, 1)`: round to one decimal place.  (Mathlib `round`
rounds half away from the floor; Python rounds half to even — the two agree
except at exact midpoints, which do not arise in the claims.) -/
def round1 (q : ℚ) : ℚ := ((round (10 * q) : ℤ) : ℚ) / 10

/-- Model of `GlmController.get_state`: snapshot dict, including derived
settling/cooldown countdown fields. -/
def getState (c : GlmController) (now : ℚ) : StateSnapshot :=
  let elapsed := now - c.powerTransitionStart
  let settlingRemaining : ℚ :=
    if 0 < c.powerTransitionStart ∧ elapsed < POWER_SETTLING_TIME then
      POWER_SETTLING_TIME - elapsed
    else 0
  let inCooldown : Bool :=
    decide (0 < c.powerTransitionStart ∧ POWER_SETTLING_TIME ≤ elapsed ∧ elapsed < POWER_TOTAL_LOCKOUT)
  let cooldownRemaining : ℚ :=
    if inCooldown then POWER_TOTAL_LOCKOUT - elapsed else 0
  { volume := c.volume,
    volumeDb := c.volume - 127,
    mute := c.mute,
    dim := c.dim,
    power := c.power,
    powerTransitioning := c.powerSettling,
    powerSettlingRemaining := round1 settlingRemaining,
    powerCooldown := inCooldown,
    powerCooldownRemaining := round1 cooldownRemaining }

/-- Model of `GlmController._notify_state_change(force)`: compute the snapshot,
debounce against `_last_notified_state`, and deliver it to subscribers
(modelled as the returned `Option StateSnapshot`). -/
def notifyStateChange (c : GlmController) (now : ℚ) (force : Bool) :
    GlmController × Option StateSnapshot :=
  let st := getState c now
  if force = false ∧ c.lastNotified = some st then (c, none)
  else ({ c with lastNotified := some st }, some st)

/-- Model of `GlmController.start_power_transition`. -/
def startPowerTransition (c : GlmController) (now : ℚ) (target : Bool) :
    GlmController × Option StateSnapshot :=
  let c1 := { c with powerTransitionStart := now, powerSettling := true,
                     powerTarget := some target }
  notifyStateChange c1 now true

/-- Model of `GlmController.end_power_transition(success, actual_state)`. -/
def endPowerTransition (c : GlmController) (now : ℚ) (success : Bool)
    (actual : Option Bool) : GlmController × Option StateSnapshot :=
  let newPower :=
    if success then
      match actual with
      | some a => a
      | none =>
        match c.powerTarget with
        | some t => t
        | none => c.power
    else c.power
  let c1 := { c with powerSettling := false, power := newPower, powerTarget := none }
  notifyStateChange c1 now true

/-- Model of `GlmController.can_accept_command`: returns the (possibly mutated)
controller and `(allowed, wait, reason)`. -/
def canAcceptCommand (c : GlmController) (now : ℚ) :
    GlmController × (Bool × ℚ × Option String) :=
  if c.powerSettling = false then (c, (true, 0, none))
  else
    let elapsed := now - c.powerTransitionStart
    if elapsed < POWER_SETTLING_TIME then
      (c, (false, POWER_SETTLING_TIME - elapsed, some "power_settling"))
    else
      ({ c with powerSettling := false }, (true, 0, none))

/-- Model of `GlmController.can_accept_power_command` (read-only). -/
def canAcceptPowerCommand (c : GlmController) (now : ℚ) :
    Bool × ℚ × Option String :=
  if c.powerTransitionStart = 0 then (true, 0, none)
  else
    let elapsed := now - c.powerTransitionStart
    if elapsed < POWER_TOTAL_LOCKOUT then
      if elapsed < POWER_SETTLING_TIME then
        (false, POWER_TOTAL_LOCKOUT - elapsed, some "power_settling")
      else
        (false, POWER_TOTAL_LOCKOUT - elapsed, some "power_cooldown")
    else (true, 0, none)

/-- Model of `GlmController.get_effective_volume`: pending if set, else confirmed. -/
def getEffectiveVolume (c : GlmController) : ℤ :=
  match c.pendingVolume with
  | some p => p
  | none => c.volume

/-- Model of `GlmController.get_volume_if_valid`: `none` unless `_volume_initialized`,
else pending-or-confirmed. -/
def getVolumeIfValid (c : GlmController) : Option ℤ :=
  if c.volumeInit = false then none
  else
    match c.pendingVolume with
    | some p => some p
    | none => some c.volume

/-- Model of `GlmController.set_pending_volume`. -/
def setPendingVolume (c : GlmController) (target : ℤ) : GlmController :=
  { c with pendingVolume := some target }

/-- Model of `GlmController.update_from_midi(cc, value)`: returns the new controller,
the `changed` flag, and the subscriber notification (if delivered). -/
def updateFromMidi (c : GlmController) (cc : ℕ) (value : ℤ) (now : ℚ) :
    GlmController × Bool × Option StateSnapshot :=
  if cc = GLM_VOLUME_ABS then
    let forceNotify : Bool :=
      match c.pendingVolume with
      | some p => decide (p ≠ value)
      | none => false
    let changed : Bool := decide (c.volume ≠ value)
    let c1 := { c with volumeInit := true, pendingVolume := none, volume := value }
    let (c2, note) := notifyStateChange c1 now forceNotify
    (c2, changed, note)
  else if cc = GLM_MUTE_CC then
    let newMute : Bool := decide (value > 0)
    if c.mute ≠ newMute then
      let (c2, note) := notifyStateChange { c with mute := newMute } now false
      (c2, true, note)
    else (c, false, none)
  else if cc = GLM_DIM_CC then
    let newDim : Bool := decide (value > 0)
    if c.dim ≠ newDim then
      let (c2, note) := notifyStateChange { c with dim := newDim } now false
      (c2, true, note)
    else (c, false, none)
  else (c, false, none)

/-- Model of `GlmController.send_volume_absolute(target)`: the `(cc, value)` MIDI
message actually sent (the target is clamped to 0..127 before sending). -/
def sendVolumeAbsolute (target : ℤ) : ℕ × ℤ :=
  (GLM_VOLUME_ABS, max 0 (min 127 target))

end GlmController

/-! ## Helper lemmas about notification -/

namespace GlmController

theorem notify_true (c : GlmController) (now : ℚ) :
    c.notifyStateChange now true =
      ({ c with lastNotified := some (c.getState now) }, some (c.getState now)) := by
  unfold notifyStateChange
  simp

theorem notify_false_eq (c : GlmController) (now : ℚ) :
    c.notifyStateChange now false =
      (if c.lastNotified = some (c.getState now) then (c, none)
       else ({ c with lastNotified := some (c.getState now) }, some (c.getState now))) := by
  unfold notifyStateChange
  simp only [true_and]

/-- Normal form of `update_from_midi` on the absolute-volume CC. -/
theorem updateFromMidi_volume (c : GlmController) (v : ℤ) (now : ℚ) :
    c.updateFromMidi GLM_VOLUME_ABS v now =
      ((({ c with volumeInit := true, pendingVolume := none, volume := v } : GlmController).notifyStateChange now
          (match c.pendingVolume with | some p => decide (p ≠ v) | none => false)).1,
       decide (c.volume ≠ v),
       (({ c with volumeInit := true, pendingVolume := none, volume := v } : GlmController).notifyStateChange now
          (match c.pendingVolume with | some p => decide (p ≠ v) | none => false)).2) := rfl

end GlmController

/-! ## Example controller states used by witnesses -/

open GlmController

/-- A controller with an initialized volume and an in-flight pending value. -/
def cPend : GlmController :=
  { mk0 with volumeInit := true, pendingVolume := some 100, volume := 50 }

/-- A controller inside an active power-settling window started at t = 1. -/
def cSettling : GlmController :=
  { mk0 with powerSettling := true, powerTransitionStart := 1 }

/-! ## Claim theorems: StateController -/

/-- Claim C5: `get_volume_if_valid` returns `none` when the volume is not
yet initialized, else the pending value if one is set, else the confirmed
volume; and `get_effective_volume` is pending-or-confirmed. -/
theorem C5_effective_volume (c : GlmController) :
    (c.volumeInit = false → c.getVolumeIfValid = none) ∧
    (c.volumeInit = true → ∀ p : ℤ, c.pendingVolume = some p → c.getVolumeIfValid = some p) ∧
    (c.volumeInit = true → c.pendingVolume = none → c.getVolumeIfValid = some c.volume) ∧
    c.getEffectiveVolume = c.pendingVolume.getD c.volume := by
  unfold GlmController.getVolumeIfValid GlmController.getEffectiveVolume
  cases hp : c.pendingVolume <;> cases hi : c.volumeInit <;> simp

/-- Witness for C5 at concrete inputs. -/
theorem C5_effective_volume_witness :
    mk0.getVolumeIfValid = none ∧ cPend.getVolumeIfValid = some 100 :=
  ⟨(C5_effective_volume mk0).1 rfl, (C5_effective_volume cPend).2.1 rfl 100 rfl⟩

/-- Claim C10: a channel update whose CC number is none of volume (20),
mute (23), dim (24) returns `changed = false`, leaves the controller state
(every field) unchanged, and delivers no notification. -/
theorem C10_other_cc_frame (c : GlmController) (cc : ℕ) (v : ℤ) (now : ℚ)
    (h1 : cc ≠ GLM_VOLUME_ABS) (h2 : cc ≠ GLM_MUTE_CC) (h3 : cc ≠ GLM_DIM_CC) :
    c.updateFromMidi cc v now = (c, false, none) := by
  unfold GlmController.updateFromMidi
  simp [h1, h2, h3]

/-- Witness for C10: CC 21 (momentary volume up) is ignored by
`update_from_midi`. -/
theorem C10_other_cc_frame_witness :
    cPend.updateFromMidi GLM_VOL_UP_CC 127 0 = (cPend, false, none) :=
  C10_other_cc_frame cPend GLM_VOL_UP_CC 127 0 (by decide) (by decide) (by decide)

/-- Claim C2: a volume echo clears `pendingVolume` and stores the echoed
value as the confirmed volume (even when it differs from the request); when
the echo differs from the pending request the notification is forced
(delivered even if the snapshot is unchanged), otherwise the notification is
the normal debounced kind (delivered iff the snapshot differs from the last
notified one). -/
theorem C2_volume_echo (c : GlmController) (v : ℤ) (now : ℚ) :
    (c.updateFromMidi GLM_VOLUME_ABS v now).1.pendingVolume = none ∧
    (c.updateFromMidi GLM_VOLUME_ABS v now).1.volume = v ∧
    ((∃ p, c.pendingVolume = some p ∧ p ≠ v) →
      ((c.updateFromMidi GLM_VOLUME_ABS v now).2.2).isSome = true) ∧
    ((c.pendingVolume = none ∨ c.pendingVolume = some v) →
      (((c.updateFromMidi GLM_VOLUME_ABS v now).2.2).isSome = true ↔
        c.lastNotified ≠
          some (getState { c with volumeInit := true, pendingVolume := none, volume := v } now))) := by
  simp only [updateFromMidi_volume]
  cases hp : c.pendingVolume with
  | none =>
    simp only [notify_false_eq]
    refine ⟨?_, ?_, ?_, ?_⟩
    · split <;> rfl
    · split <;> rfl
    · rintro ⟨p, hps, -⟩
      exact Option.noConfusion hps
    · intro _
      split
      · rename_i h
        simpa using h
      · rename_i h
        simpa using h
  | some p =>
    by_cases hpv : p = v
    · subst hpv
      have hd : (decide (p ≠ p)) = false := by simp
      dsimp only
      rw [hd]
      simp only [notify_false_eq]
      refine ⟨?_, ?_, ?_, ?_⟩
      · split <;> rfl
      · split <;> rfl
      · rintro ⟨q, hq, hqv⟩
        cases hq
        exact absurd rfl hqv
      · intro _
        split
        · rename_i h
          simpa using h
        · rename_i h
          simpa using h
    · have hd : (decide (p ≠ v)) = true := by simpa using hpv
      dsimp only
      rw [hd]
      simp only [notify_true, Option.isSome_some]
      refine ⟨by simp, by simp, by simp, ?_⟩
      rintro (h | h)
      · exact Option.noConfusion h
      · cases h
        exact absurd rfl hpv

/-- Witness for C2: echoing 90 against a pending request of 100 clears the
pending value, stores 90, and forces a notification. -/
theorem C2_volume_echo_witness :
    (cPend.updateFromMidi GLM_VOLUME_ABS 90 0).1.pendingVolume = none ∧
    (cPend.updateFromMidi GLM_VOLUME_ABS 90 0).1.volume = 90 ∧
    ((cPend.updateFromMidi GLM_VOLUME_ABS 90 0).2.2).isSome = true :=
  ⟨(C2_volume_echo cPend 90 0).1, (C2_volume_echo cPend 90 0).2.1,
   (C2_volume_echo cPend 90 0).2.2.1 ⟨100, rfl, by decide⟩⟩

/-- Claim C3: while a transition is active and within the 2 s settling
window, `can_accept_command` rejects; it allows again only once 2 s have
elapsed.  `can_accept_power_command` rejects for the full 7 s lockout after
`startedAt`, with the reason distinguishing settling from cooldown, and
allows once the lockout has elapsed. -/
theorem C3_settling_lockout (c : GlmController) (now : ℚ) :
    (c.powerSettling = true → now - c.powerTransitionStart < POWER_SETTLING_TIME →
      (c.canAcceptCommand now).2.1 = false) ∧
    (c.powerSettling = true → (c.canAcceptCommand now).2.1 = true →
      POWER_SETTLING_TIME ≤ now - c.powerTransitionStart) ∧
    (0 < c.powerTransitionStart → now - c.powerTransitionStart < POWER_TOTAL_LOCKOUT →
      (c.canAcceptPowerCommand now).1 = false ∧
      (c.canAcceptPowerCommand now).2.2 =
        some (if now - c.powerTransitionStart < POWER_SETTLING_TIME then
                "power_settling" else "power_cooldown")) ∧
    (0 < c.powerTransitionStart → POWER_TOTAL_LOCKOUT ≤ now - c.powerTransitionStart →
      (c.canAcceptPowerCommand now).1 = true) := by
  unfold GlmController.canAcceptCommand GlmController.canAcceptPowerCommand
  refine ⟨?_, ?_, ?_, ?_⟩
  · intro hs helap
    simp only [hs]
    simp [helap]
  · intro hs hallow
    simp only [hs] at hallow
    by_contra hlt
    push_neg at hlt
    simp [hlt] at hallow
  · intro hpos hlock
    have hne : c.powerTransitionStart ≠ 0 := ne_of_gt hpos
    simp only [hne, if_false, hlock, if_true]
    split <;> simp
  · intro hpos hlock
    have hne : c.powerTransitionStart ≠ 0 := ne_of_gt hpos
    have : ¬(now - c.powerTransitionStart < POWER_TOTAL_LOCKOUT) := not_lt.mpr hlock
    simp [hne, this]

/-- Witness for C3 at the concrete state `cSettling` (transition started at
t = 1) queried at t = 2 (elapsed 1 s). -/
theorem C3_settling_lockout_witness :
    (cSettling.canAcceptCommand 2).2.1 = false ∧
    (cSettling.canAcceptPowerCommand 2).1 = false :=
  ⟨(C3_settling_lockout cSettling 2).1 rfl
     (by norm_num [cSettling, mk0, POWER_SETTLING_TIME]),
   ((C3_settling_lockout cSettling 2).2.2.1
     (by norm_num [cSettling, mk0])
     (by norm_num [cSettling, mk0, POWER_TOTAL_LOCKOUT, POWER_SETTLING_TIME, POWER_COOLDOWN_TIME])).1⟩

/-- Claim C6: `end_power_transition` sets `power` to the supplied actual
state, else (on success) to the transition target, and leaves `power`
untouched on failure; in every case it clears the settling flag and the
target and force-notifies. -/
theorem C6_end_transition (c : GlmController) (now : ℚ) (s : Bool) (a : Option Bool) :
    (c.endPowerTransition now s a).1.power =
      (if s then a.getD (c.powerTarget.getD c.power) else c.power) ∧
    (c.endPowerTransition now s a).1.powerSettling = false ∧
    (c.endPowerTransition now s a).1.powerTarget = none ∧
    ((c.endPowerTransition now s a).2).isSome = true := by
  unfold GlmController.endPowerTransition GlmController.notifyStateChange
  cases s <;> cases a <;> cases ht : c.powerTarget <;> simp [ht]

/-! ## Actions and the dispatcher (glm_core/actions.py, HIDToMIDIDaemon.consumer) -/

/-- The `GlmAction` union (glm_core/actions.py): `SetVolume`, `AdjustVolume`,
`SetMute`, `SetDim`, `SetPower` (optional state = toggle). -/
inductive GlmAction where
  | setVolume (target : ℤ)
  | adjustVolume (delta : ℤ)
  | setMute (state : Option Bool)
  | setDim (state : Option Bool)
  | setPower (state : Option Bool)
deriving DecidableEq, Repr

/-- Model of `QueuedAction`: an action plus its enqueue timestamp. -/
structure QueuedAction where
  action : GlmAction
  timestamp : ℚ
deriving DecidableEq, Repr

/-- External collaborators of the dispatcher, fixed for one step:
whether the MIDI output handle is connected, whether a
`GlmPowerController` exists, whether `ensure_session_connected` succeeds
(or is absent), whether `set_state(desired, verify=True)` returns without
raising, and how long the UI automation took. -/
structure DispatchEnv where
  midiOk : Bool
  hasActuator : Bool
  sessionOk : Bool
  actuatorSetOk : Bool
  actuatorElapsed : ℚ
deriving Repr

/-- What the consumer loop did with one dequeued command. -/
inductive Outcome where
  | stale
  | blocked (reason : String)
  | handled
deriving DecidableEq, Repr

/-- Net effect of one consumer-loop iteration: new controller state, MIDI
messages sent, notifications delivered, whether `_rx_seq` was cleared, and
the branch taken. -/
structure DispatchResult where
  ctrl : GlmController
  sent : List (ℕ × ℤ)
  notes : List StateSnapshot
  clearRx : Bool
  outcome : Outcome
deriving Repr

/-- Model of `HIDToMIDIDaemon._handle_set_volume`: clamp, set pending, send CC 20,
clear the pattern buffer. -/
def handleSetVolume (c : GlmController) (env : DispatchEnv) (target : ℤ) :
    GlmController × List (ℕ × ℤ) × Bool :=
  if env.midiOk = false then (c, [], false)
  else
    let t := max 0 (min 127 target)
    (c.setPendingVolume t, [GlmController.sendVolumeAbsolute t], true)

/-- Model of `HIDToMIDIDaemon._handle_adjust_volume`: when the volume is initialized,
compute the clamped absolute target from the effective volume; only when it
differs from the current effective volume, set pending and send CC 20 (and
clear the pattern buffer).  When not initialized, send a single momentary
CC 21/22 to provoke an echo. -/
def handleAdjustVolume (c : GlmController) (env : DispatchEnv) (delta : ℤ) :
    GlmController × List (ℕ × ℤ) × Bool :=
  if env.midiOk = false then (c, [], false)
  else
    match c.getVolumeIfValid with
    | some current =>
      let target := max 0 (min 127 (current + delta))
      if target ≠ current then
        (c.setPendingVolume target, [GlmController.sendVolumeAbsolute target], true)
      else (c, [], false)
    | none =>
      (c, [if delta > 0 then (GLM_VOL_UP_CC, (127 : ℤ)) else (GLM_VOL_DOWN_CC, (127 : ℤ))], false)

/-- Model of `GlmController.send_action(Action.MUTE)` toggle branch: send the
opposite of the current state. -/
def sendActionMute (c : GlmController) : ℕ × ℤ :=
  (GLM_MUTE_CC, if c.mute then 0 else 127)

/-- Model of `GlmController.send_action(Action.DIM)` toggle branch. -/
def sendActionDim (c : GlmController) : ℕ × ℤ :=
  (GLM_DIM_CC, if c.dim then 0 else 127)

/-- Model of `HIDToMIDIDaemon._handle_power_action`: resolve toggle against the
tracked power state, bracket the UI-automation call in a transition, wait
out the rest of the settling window, and end the transition with
success/actual (failure leaves `power` untouched). -/
def handlePowerAction (c : GlmController) (env : DispatchEnv) (st : Option Bool)
    (now : ℚ) : GlmController × List StateSnapshot :=
  if env.hasActuator = false then (c, [])
  else
    let target := match st with | some b => b | none => !c.power
    let (c1, n1) := c.startPowerTransition now target
    if env.sessionOk = false then
      let (c2, n2) := c1.endPowerTransition now false none
      (c2, n1.toList ++ n2.toList)
    else
      let tEnd := now + max env.actuatorElapsed POWER_SETTLING_TIME
      if env.actuatorSetOk then
        let (c2, n2) := c1.endPowerTransition tEnd true (some target)
        (c2, n1.toList ++ n2.toList)
      else
        let (c2, n2) := c1.endPowerTransition tEnd false none
        (c2, n1.toList ++ n2.toList)

/-- One iteration of `HIDToMIDIDaemon.consumer` on a dequeued
`QueuedAction`: staleness check, admission control, then dispatch by
action kind. -/
def consumerStep (c : GlmController) (env : DispatchEnv) (q : QueuedAction)
    (now : ℚ) : DispatchResult :=
  if now - q.timestamp > MAX_EVENT_AGE then
    { ctrl := c, sent := [], notes := [], clearRx := false, outcome := .stale }
  else
    match q.action with
    | .setPower st =>
      let r := c.canAcceptPowerCommand now
      if r.1 = false then
        { ctrl := c, sent := [], notes := [], clearRx := false,
          outcome := .blocked ((r.2.2).getD "") }
      else
        let (c2, notes) := handlePowerAction c env st now
        { ctrl := c2, sent := [], notes := notes, clearRx := false, outcome := .handled }
    | a =>
      let (c1, r) := c.canAcceptCommand now
      if r.1 = false then
        { ctrl := c1, sent := [], notes := [], clearRx := false,
          outcome := .blocked ((r.2.2).getD "") }
      else
        match a with
        | .setVolume t =>
          let (c2, msgs, clr) := handleSetVolume c1 env t
          { ctrl := c2, sent := msgs, notes := [], clearRx := clr, outcome := .handled }
        | .adjustVolume d =>
          let (c2, msgs, clr) := handleAdjustVolume c1 env d
          { ctrl := c2, sent := msgs, notes := [], clearRx := clr, outcome := .handled }
        | .setMute _ =>
          { ctrl := c1, sent := if env.midiOk then [sendActionMute c1] else [],
            notes := [], clearRx := false, outcome := .handled }
        | .setDim _ =>
          { ctrl := c1, sent := if env.midiOk then [sendActionDim c1] else [],
            notes := [], clearRx := false, outcome := .handled }
        | .setPower st =>
          let (c2, notes) := handlePowerAction c1 env st now
          { ctrl := c2, sent := [], notes := notes, clearRx := false, outcome := .handled }

/-- Repeated relative adjustments: fold `_handle_adjust_volume` over a list
of deltas, collecting every MIDI message sent. -/
def adjustSeq (c : GlmController) (env : DispatchEnv) : List ℤ → GlmController × List (ℕ × ℤ)
  | [] => (c, [])
  | d :: ds =>
    let (c1, msgs, _) := handleAdjustVolume c env d
    let (c2, rest) := adjustSeq c1 env ds
    (c2, msgs ++ rest)

/-! ## Example dispatcher inputs used by witnesses -/

/-- All collaborators healthy. -/
def envOk : DispatchEnv :=
  { midiOk := true, hasActuator := true, sessionOk := true,
    actuatorSetOk := true, actuatorElapsed := 1/2 }

/-- Initialized controller already at the maximum volume. -/
def cFull : GlmController := { mk0 with volume := 127, volumeInit := true }

/-- Initialized controller at volume 50. -/
def cInit50 : GlmController := { mk0 with volume := 50, volumeInit := true }

/-- A command enqueued at t = 0. -/
def qOld : QueuedAction := { action := .adjustVolume 1, timestamp := 0 }

/-! ## Claim theorems: dispatcher -/

/-- Every MIDI message emitted by a single `_handle_adjust_volume` call has
a value in [0, 127]. -/
theorem handleAdjustVolume_sent_in_range (c : GlmController) (env : DispatchEnv) (d : ℤ) :
    ∀ m ∈ (handleAdjustVolume c env d).2.1, 0 ≤ m.2 ∧ m.2 ≤ 127 := by
  unfold handleAdjustVolume GlmController.sendVolumeAbsolute
  split
  · simp
  · split
    · dsimp only
      split
      · intro m hm
        simp only [List.mem_singleton] at hm
        subst hm
        constructor <;> simp
      · simp
    · intro m hm
      simp only [List.mem_singleton] at hm
      subst hm
      split <;> simp

/-- Every MIDI message emitted across a whole sequence of relative
adjustments has a value in [0, 127]. -/
theorem adjustSeq_sent_in_range (env : DispatchEnv) :
    ∀ (ds : List ℤ) (c : GlmController), ∀ m ∈ (adjustSeq c env ds).2, 0 ≤ m.2 ∧ m.2 ≤ 127 := by
  intro ds
  induction ds with
  | nil => intro c m hm; simp [adjustSeq] at hm
  | cons d ds ih =>
    intro c m hm
    unfold adjustSeq at hm
    simp only [List.mem_append] at hm
    rcases hm with hm | hm
    · exact handleAdjustVolume_sent_in_range c env d m hm
    · exact ih _ m hm

/-- Counterexample to claim C1 as stated: with the volume initialized and
already at the maximum (127), `AdjustVolume(+1)` computes target 127 equal
to the effective volume, so the dispatcher sends no absolute-set message and
records no pending volume — contradicting the claim that every processed
`AdjustVolume` records a pending value and sends a message. -/
theorem C1_counterexample :
    (handleAdjustVolume cFull envOk 1).2.1 = [] ∧
    (handleAdjustVolume cFull envOk 1).1.pendingVolume = none :=
  ⟨rfl, rfl⟩

/-- Claim C1 (amended): with `volumeInitialized` true and effective volume
`cur`, the dispatcher computes `target = clamp(cur + delta, 0, 127)`; when
the target differs from `cur` it records it as `pendingVolume` and sends an
absolute-set message carrying exactly that target (which lies in [0, 127]);
when the target equals `cur` it sends nothing and changes nothing; and over
any sequence of adjustments every value sent is within [0, 127]. -/
theorem C1_adjust_clamped (c : GlmController) (env : DispatchEnv) (d cur : ℤ)
    (hm : env.midiOk = true) (hcur : c.getVolumeIfValid = some cur) :
    (max 0 (min 127 (cur + d)) ≠ cur →
      handleAdjustVolume c env d =
        (c.setPendingVolume (max 0 (min 127 (cur + d))),
         [(GLM_VOLUME_ABS, max 0 (min 127 (cur + d)))], true) ∧
      0 ≤ max 0 (min 127 (cur + d)) ∧ max 0 (min 127 (cur + d)) ≤ 127) ∧
    (max 0 (min 127 (cur + d)) = cur → handleAdjustVolume c env d = (c, [], false)) ∧
    (∀ ds : List ℤ, ∀ m ∈ (adjustSeq c env ds).2, 0 ≤ m.2 ∧ m.2 ≤ 127) := by
  have hclamp : max 0 (min 127 (max 0 (min 127 (cur + d)))) = max 0 (min 127 (cur + d)) := by
    omega
  refine ⟨?_, ?_, fun ds => adjustSeq_sent_in_range env ds c⟩
  · intro hne
    unfold handleAdjustVolume GlmController.sendVolumeAbsolute
    rw [hm, hcur]
    simp only [Bool.true_eq_false, if_false]
    rw [if_pos hne, hclamp]
    exact ⟨rfl, by omega, by omega⟩
  · intro heq
    unfold handleAdjustVolume
    rw [hm, hcur]
    simp only [Bool.true_eq_false, if_false]
    rw [if_neg (by simpa using heq)]

/-- Witness for the amended C1: `AdjustVolume(+3)` at confirmed volume 50
records pending 53 and sends exactly `(CC 20, 53)`. -/
theorem C1_adjust_clamped_witness :
    handleAdjustVolume cInit50 envOk 3 =
      (cInit50.setPendingVolume 53, [(GLM_VOLUME_ABS, 53)], true) :=
  (((C1_adjust_clamped cInit50 envOk 3 50 rfl rfl).1 (by decide)).1).trans rfl

/-- Claim C4: a dequeued command whose age exceeds the 2 s staleness
threshold is discarded whole: no MIDI send, no notification, no state
mutation, and no admission check (the outcome is `stale`, not `blocked`). -/
theorem C4_stale_discard (c : GlmController) (env : DispatchEnv) (q : QueuedAction)
    (now : ℚ) (h : now - q.timestamp > MAX_EVENT_AGE) :
    consumerStep c env q now =
      { ctrl := c, sent := [], notes := [], clearRx := false, outcome := .stale } := by
  unfold consumerStep
  rw [if_pos h]

/-- Witness for C4: a command enqueued at t = 0 and dequeued at t = 3 is
discarded without touching the controller. -/
theorem C4_stale_discard_witness :
    (consumerStep cPend envOk qOld 3).outcome = .stale ∧
    (consumerStep cPend envOk qOld 3).ctrl = cPend ∧
    (consumerStep cPend envOk qOld 3).sent = [] := by
  have h := C4_stale_discard cPend envOk qOld 3 (by norm_num [qOld, MAX_EVENT_AGE])
  rw [h]
  exact ⟨rfl, rfl, rfl⟩

/-! ## Pattern detection (HIDToMIDIDaemon.midi_reader) -/

/-- Per-reader mutable state: the `(timestamp, cc)` window `_rx_seq`, the
`_last_pattern_time` of the fallback heuristic (`none` models Python `None`;
real timestamps are positive, so Python truthiness coincides with
presence), and the `_suppress_power_pattern` flag. -/
structure ReaderState where
  rxSeq : List (ℚ × ℕ)
  lastPatternTime : Option ℚ
  suppress : Bool
deriving DecidableEq, Repr

/-- Collaborators of the reader loop: whether a `GlmPowerController`
exists, and what its `get_state()` returns (`some b` for "on"/"off";
`none` for an "unknown" string or a raised exception, which the loop treats
identically: `state_updated` stays false). -/
structure ReaderEnv where
  hasActuator : Bool
  actuatorRead : Option Bool
deriving Repr

/-- Which branch of the pattern-detection block one inbound message took. -/
inductive PatternOutcome where
  | noMatch
  | tooFast
  | suppressed
  | cooldownSkip
  | classified
deriving DecidableEq, Repr

/-- Result of one `midi_reader` iteration on a `control_change` message. -/
structure ReaderResult where
  ctrl : GlmController
  rs : ReaderState
  outcome : PatternOutcome
  skipUpdate : Bool
  powerNote : Option StateSnapshot
  changed : Bool
  note : Option StateSnapshot
deriving Repr

/-- The `_rx_seq` buffer after appending the new message and dropping
entries older than `POWER_PATTERN_WINDOW`. -/
def windowedSeq (rs : ReaderState) (now : ℚ) (cc : ℕ) : List (ℚ × ℕ) :=
  (rs.rxSeq ++ [(now, cc)]).filter (fun p => now - p.1 ≤ POWER_PATTERN_WINDOW)

/-- Model of `len(seq) >= 5 and seq[-5:] == POWER_PATTERN`. -/
def patternMatched (l : List (ℚ × ℕ)) : Bool :=
  decide (5 ≤ l.length) &&
    decide ((l.map Prod.snd).drop (l.length - 5) = POWER_PATTERN)

/-- Model of `self._rx_seq[-1][0] - self._rx_seq[-5][0]`: time span across the last
five buffered messages. -/
def patternSpan (l : List (ℚ × ℕ)) : ℚ :=
  ((l.getLastD (0, 0)).1) - (((l.drop (l.length - 5)).headD (0, 0)).1)

/-- One `midi_reader` iteration on an inbound `(cc, value)` control change:
pattern bookkeeping, power-pattern classification (UI read when available,
toggle/startup fallback otherwise), then the `update_from_midi` state
update (skipped when the suppressed/cooldown branches `continue`). -/
def midiReaderStep (c : GlmController) (rs : ReaderState) (env : ReaderEnv)
    (now : ℚ) (cc : ℕ) (value : ℤ) : ReaderResult :=
  let rxSeq := windowedSeq rs now cc
  let seq := rxSeq.map Prod.snd
  if patternMatched rxSeq then
    if POWER_PATTERN_MIN_SPAN ≤ patternSpan rxSeq then
      if rs.suppress then
        { ctrl := c, rs := { rs with rxSeq := [] }, outcome := .suppressed,
          skipUpdate := true, powerNote := none, changed := false, note := none }
      else if (c.canAcceptPowerCommand now).1 = false then
        { ctrl := c, rs := { rs with rxSeq := [] }, outcome := .cooldownSkip,
          skipUpdate := true, powerNote := none, changed := false, note := none }
      else
        let oldPower := c.power
        let fromUi : Option Bool := if env.hasActuator then env.actuatorRead else none
        let (newPower, newLast) :=
          match fromUi with
          | some b => (b, rs.lastPatternTime)
          | none =>
            if seq.length = 5 then
              match rs.lastPatternTime with
              | some lp =>
                if now - lp < POWER_STARTUP_WINDOW then (true, none)
                else (!c.power, some now)
              | none => (!c.power, some now)
            else (c.power, some now)
        let c1 := { c with power := newPower }
        let (c1b, pnote) :=
          if newPower ≠ oldPower then c1.notifyStateChange now false else (c1, none)
        let (c2, changed, note) := c1b.updateFromMidi cc value now
        { ctrl := c2, rs := { rs with rxSeq := [], lastPatternTime := newLast },
          outcome := .classified, skipUpdate := false, powerNote := pnote,
          changed := changed, note := note }
    else
      let (c2, changed, note) := c.updateFromMidi cc value now
      { ctrl := c2, rs := { rs with rxSeq := rxSeq }, outcome := .tooFast,
        skipUpdate := false, powerNote := none, changed := changed, note := note }
  else
    let (c2, changed, note) := c.updateFromMidi cc value now
    { ctrl := c2, rs := { rs with rxSeq := rxSeq }, outcome := .noMatch,
      skipUpdate := false, powerNote := none, changed := changed, note := note }

/-! ## Claim theorems: pattern detector -/

/-- Model of `update_from_midi` never touches the `power` field. -/
theorem updateFromMidi_power (c : GlmController) (cc : ℕ) (v : ℤ) (now : ℚ) :
    (c.updateFromMidi cc v now).1.power = c.power := by
  unfold GlmController.updateFromMidi GlmController.notifyStateChange
  dsimp only
  repeat' split
  all_goals rfl

/-- Model of `_notify_state_change` never touches the `power` field. -/
theorem notify_power (c : GlmController) (now : ℚ) (f : Bool) :
    ((c.notifyStateChange now f).1).power = c.power := by
  unfold GlmController.notifyStateChange
  dsimp only
  split <;> rfl

/-- Reader state with four pattern messages buffered, the fifth arriving
0.04 s after the first (below the minimum span). -/
def rsFast : ReaderState :=
  { rxSeq := [(0, GLM_MUTE_CC), (1/100, GLM_VOLUME_ABS), (2/100, GLM_DIM_CC), (3/100, GLM_MUTE_CC)],
    lastPatternTime := none, suppress := false }

/-- Reader environment with no power actuator available. -/
def envR : ReaderEnv := { hasActuator := false, actuatorRead := none }

/-- Claim C7 (amended): a 5-message burst matching the power signature
whose span is strictly below the 0.05 s minimum is not classified: the
branch taken is the too-fast rejection, the `power` field is unchanged, no
power notification fires, and the fallback pattern timestamp is untouched.
Conversely a matching burst is classified only when its span is at least
(not strictly above) the minimum. -/
theorem C7_min_span (c : GlmController) (rs : ReaderState) (env : ReaderEnv)
    (now : ℚ) (cc : ℕ) (v : ℤ) :
    (patternMatched (windowedSeq rs now cc) = true →
      patternSpan (windowedSeq rs now cc) < POWER_PATTERN_MIN_SPAN →
      (midiReaderStep c rs env now cc v).outcome = .tooFast ∧
      (midiReaderStep c rs env now cc v).ctrl.power = c.power ∧
      (midiReaderStep c rs env now cc v).powerNote = none ∧
      (midiReaderStep c rs env now cc v).rs.lastPatternTime = rs.lastPatternTime) ∧
    ((midiReaderStep c rs env now cc v).outcome = .classified →
      POWER_PATTERN_MIN_SPAN ≤ patternSpan (windowedSeq rs now cc)) := by
  constructor
  · intro hm hspan
    have hstep : midiReaderStep c rs env now cc v =
        { ctrl := (c.updateFromMidi cc v now).1,
          rs := { rs with rxSeq := windowedSeq rs now cc },
          outcome := .tooFast, skipUpdate := false, powerNote := none,
          changed := (c.updateFromMidi cc v now).2.1,
          note := (c.updateFromMidi cc v now).2.2 } := by
      unfold midiReaderStep
      rw [if_pos hm, if_neg (not_le.mpr hspan)]
    rw [hstep]
    exact ⟨rfl, updateFromMidi_power c cc v now, rfl, rfl⟩
  · intro hc
    by_contra hlt
    rw [not_le] at hlt
    by_cases hm : patternMatched (windowedSeq rs now cc) = true
    · have hstep : (midiReaderStep c rs env now cc v).outcome = .tooFast := by
        unfold midiReaderStep
        rw [if_pos hm, if_neg (not_le.mpr hlt)]
      rw [hstep] at hc
      exact PatternOutcome.noConfusion hc
    · have hstep : (midiReaderStep c rs env now cc v).outcome = .noMatch := by
        unfold midiReaderStep
        rw [if_neg hm]
      rw [hstep] at hc
      exact PatternOutcome.noConfusion hc

/-- Witness for C7: a matching burst spanning only 0.04 s is rejected as
too fast and leaves `power` untouched. -/
theorem C7_min_span_witness :
    (midiReaderStep GlmController.mk0 rsFast envR (4/100) GLM_VOLUME_ABS 64).outcome = .tooFast ∧
    (midiReaderStep GlmController.mk0 rsFast envR (4/100) GLM_VOLUME_ABS 64).ctrl.power = true := by
  have hw : windowedSeq rsFast (4/100) GLM_VOLUME_ABS =
      [(0, GLM_MUTE_CC), (1/100, GLM_VOLUME_ABS), (2/100, GLM_DIM_CC), (3/100, GLM_MUTE_CC),
       (4/100, GLM_VOLUME_ABS)] := by
    norm_num [windowedSeq, rsFast, POWER_PATTERN_WINDOW, List.filter_cons, decide_eq_true_eq]
  have hm : patternMatched (windowedSeq rsFast (4/100) GLM_VOLUME_ABS) = true := by
    rw [hw]; rfl
  have hsp : patternSpan (windowedSeq rsFast (4/100) GLM_VOLUME_ABS) = 4/100 - 0 := by
    rw [hw]; rfl
  have hspan : patternSpan (windowedSeq rsFast (4/100) GLM_VOLUME_ABS) < POWER_PATTERN_MIN_SPAN := by
    rw [hsp]; norm_num [POWER_PATTERN_MIN_SPAN]
  have h := (C7_min_span GlmController.mk0 rsFast envR (4/100) GLM_VOLUME_ABS 64).1 hm hspan
  exact ⟨h.1, h.2.1⟩

/-- Reader state with four pattern messages buffered, the fifth arriving
exactly 0.05 s after the first (span exactly equal to the minimum). -/
def rsEdge : ReaderState :=
  { rxSeq := [(0, GLM_MUTE_CC), (1/100, GLM_VOLUME_ABS), (2/100, GLM_DIM_CC), (3/100, GLM_MUTE_CC)],
    lastPatternTime := none, suppress := false }

/-- General shape of the classified branch when no actuator is available
and the 5-message fallback toggles the tracked power state. -/
theorem midiReaderStep_fallback_toggle (c : GlmController) (rs : ReaderState)
    (env : ReaderEnv) (now : ℚ) (cc : ℕ) (v : ℤ)
    (hm : patternMatched (windowedSeq rs now cc) = true)
    (hs : POWER_PATTERN_MIN_SPAN ≤ patternSpan (windowedSeq rs now cc))
    (hsup : rs.suppress = false)
    (hallow : (c.canAcceptPowerCommand now).1 = true)
    (henv : env.hasActuator = false)
    (hlen : ((windowedSeq rs now cc).map Prod.snd).length = 5)
    (hlast : rs.lastPatternTime = none) :
    (midiReaderStep c rs env now cc v).outcome = .classified ∧
    (midiReaderStep c rs env now cc v).ctrl.power = (!c.power) := by
  unfold midiReaderStep
  rw [if_pos hm, if_pos hs]
  rw [if_neg (by rw [hsup]; decide)]
  rw [if_neg (by rw [hallow]; decide)]
  rw [henv, hlen, hlast]
  refine ⟨rfl, ?_⟩
  simp only [↓reduceIte]
  rw [show (if false = true then env.actuatorRead else none) = none from rfl]
  dsimp only
  rw [if_pos (show (!c.power) ≠ c.power by cases c.power <;> decide)]
  rw [updateFromMidi_power, notify_power]

/-- Counterexample to claim C7 as stated: a matching burst whose span
EQUALS the 0.05 s minimum — so it does not exceed it — is nevertheless
accepted: it is classified as a power event, and the no-actuator fallback
flips the tracked power state from on to off. -/
theorem C7_counterexample :
    patternSpan (windowedSeq rsEdge (1/20) GLM_VOLUME_ABS) = POWER_PATTERN_MIN_SPAN ∧
    (midiReaderStep GlmController.mk0 rsEdge envR (1/20) GLM_VOLUME_ABS 64).outcome = .classified ∧
    (midiReaderStep GlmController.mk0 rsEdge envR (1/20) GLM_VOLUME_ABS 64).ctrl.power = false ∧
    GlmController.mk0.power = true := by
  have hw : windowedSeq rsEdge (1/20) GLM_VOLUME_ABS =
      [(0, GLM_MUTE_CC), (1/100, GLM_VOLUME_ABS), (2/100, GLM_DIM_CC), (3/100, GLM_MUTE_CC),
       (1/20, GLM_VOLUME_ABS)] := by
    norm_num [windowedSeq, rsEdge, POWER_PATTERN_WINDOW, List.filter_cons, decide_eq_true_eq]
  have hm : patternMatched (windowedSeq rsEdge (1/20) GLM_VOLUME_ABS) = true := by
    rw [hw]; rfl
  have hsp : patternSpan (windowedSeq rsEdge (1/20) GLM_VOLUME_ABS) = 1/20 - 0 := by
    rw [hw]; rfl
  have h := midiReaderStep_fallback_toggle GlmController.mk0 rsEdge envR (1/20) GLM_VOLUME_ABS 64
    hm (by rw [hsp]; norm_num [POWER_PATTERN_MIN_SPAN]) rfl rfl rfl
    (by rw [hw]; rfl) rfl
  refine ⟨by rw [hsp]; norm_num [POWER_PATTERN_MIN_SPAN], h.1, ?_, rfl⟩
  rw [h.2]
  rfl

/-! ## Acceleration engine (acceleration.py) -/

/-- Model of `AccelerationHandler` state: the configuration (`min_click`,
`max_per_click_avg`, `volume_increases_list`) and the per-run counters.
`calculate_speed` on an empty curve would raise in Python; the embedding
defaults the lookup to 0, and every claim uses a non-empty curve. -/
structure AccelState where
  minClick : ℚ
  maxPerClickAvg : ℚ
  curve : List ℤ
  lastButton : ℤ
  lastTime : ℚ
  firstTime : ℚ
  distance : ℤ
  count : ℕ
deriving DecidableEq, Repr

/-- Model of `AccelerationHandler.calculate_speed(current_time, button)`: reset the
run on a direction change, an excessive gap, or an excessive running
average; otherwise look up the curve at `count - 1` (saturating at the last
entry) and advance `count`. -/
def calculateSpeed (s : AccelState) (t : ℚ) (button : ℤ) : AccelState × ℤ :=
  let deltaTime := t - s.lastTime
  let avgHigh : Bool :=
    if s.count = 0 then true
    else decide ((t - s.firstTime) / (s.count : ℚ) > s.maxPerClickAvg)
  if s.lastButton ≠ button ∨ avgHigh = true ∨ deltaTime > s.minClick then
    ({ s with distance := 1, count := 1, firstTime := t,
              lastButton := button, lastTime := t }, 1)
  else
    let d := if s.count ≤ s.curve.length then s.curve.getD (s.count - 1) 0
             else s.curve.getLastD 0
    ({ s with distance := d, count := s.count + 1,
              lastButton := button, lastTime := t }, d)

/-- Step sizes returned by feeding a list of `(timestamp, button)` events
through `calculate_speed`. -/
def accelOutputs (s : AccelState) : List (ℚ × ℤ) → List ℤ
  | [] => []
  | (t, b) :: es =>
    let r := calculateSpeed s t b
    r.2 :: accelOutputs r.1 es

/-- A sustained fast same-direction run: every event keeps the button,
arrives within `minClick` of the previous event, and keeps the running
average within `maxPerClickAvg` — exactly the conditions under which
`calculate_speed` takes its non-reset branch. -/
def fastRun (s : AccelState) : List (ℚ × ℤ) → Bool
  | [] => true
  | (t, b) :: es =>
    decide (b = s.lastButton) && decide (t - s.lastTime < s.minClick) &&
    decide (s.count ≠ 0) &&
    decide ((t - s.firstTime) / (s.count : ℚ) ≤ s.maxPerClickAvg) &&
    fastRun (calculateSpeed s t b).1 es

/-- The step size the curve `[1,1,2,2,3]` yields at 0-based run position
`i`, saturating at the final entry. -/
def curveVal (i : ℕ) : ℤ := [1, 1, 2, 2, 3].getD (min i 4) 0

/-- Under the non-reset conditions, `calculate_speed` advances the run. -/
theorem calculateSpeed_step (s : AccelState) (t : ℚ) (b : ℤ)
    (hb : b = s.lastButton) (hd : t - s.lastTime < s.minClick)
    (hc : s.count ≠ 0) (ha : (t - s.firstTime) / (s.count : ℚ) ≤ s.maxPerClickAvg) :
    calculateSpeed s t b =
      ({ s with
          distance := if s.count ≤ s.curve.length then s.curve.getD (s.count - 1) 0
                      else s.curve.getLastD 0,
          count := s.count + 1, lastButton := b, lastTime := t },
       if s.count ≤ s.curve.length then s.curve.getD (s.count - 1) 0
       else s.curve.getLastD 0) := by
  unfold calculateSpeed
  rw [if_neg]
  rintro (h | h | h)
  · exact h hb.symm
  · rw [if_neg hc] at h
    rw [decide_eq_true_eq] at h
    exact absurd ha (not_le.mpr h)
  · exact absurd hd (not_lt.mpr (le_of_lt h))

/-- The curve position function is monotone. -/
theorem curveVal_mono {i j : ℕ} (hij : i ≤ j) : curveVal i ≤ curveVal j := by
  unfold curveVal
  suffices h : ∀ a b : ℕ, a ≤ b → b ≤ 4 →
      ([1, 1, 2, 2, 3] : List ℤ).getD a 0 ≤ ([1, 1, 2, 2, 3] : List ℤ).getD b 0 by
    exact h _ _ (by omega) (by omega)
  intro a b hab hb4
  interval_cases b <;> interval_cases a <;> decide

/-- Along a fast same-direction run the outputs are the curve entries from
position `count - 1` on, saturating at the last entry. -/
theorem accelOutputs_fastRun (es : List (ℚ × ℤ)) : ∀ s : AccelState,
    s.curve = [1, 1, 2, 2, 3] → fastRun s es = true → 1 ≤ s.count →
    accelOutputs s es =
      (List.range es.length).map (fun i => curveVal (s.count - 1 + i)) := by
  induction es with
  | nil => intro s _ _ _; rfl
  | cons e es ih =>
    obtain ⟨t, b⟩ := e
    intro s hcurve hrun hcount
    simp only [fastRun, Bool.and_eq_true, decide_eq_true_eq] at hrun
    obtain ⟨⟨⟨⟨hb, hd⟩, hc⟩, ha⟩, htail⟩ := hrun
    have hstep := calculateSpeed_step s t b hb hd hc ha
    rw [accelOutputs, hstep]
    rw [hstep] at htail
    dsimp only at htail ⊢
    rw [ih _ (by exact hcurve) htail (by dsimp only; omega)]
    dsimp only
    rw [List.length_cons, List.range_succ_eq_map, List.map_cons, List.map_map]
    congr 1
    · rw [hcurve]
      unfold curveVal
      by_cases h5 : s.count ≤ 5
      · rw [if_pos (by simpa using h5)]
        have : min (s.count - 1 + 0) 4 = s.count - 1 := by omega
        rw [this]
      · rw [if_neg (by simpa using h5)]
        have : min (s.count - 1 + 0) 4 = 4 := by omega
        rw [this]
        rfl
    · apply List.map_congr_left
      intro i _
      simp only [Function.comp]
      congr 1
      omega

/-- Claim C8: with the fixed curve `[1,1,2,2,3]`, a freshly-restarted run of
fast same-direction events yields exactly the step sequence
`1, 1, 2, 2, 3, 3, 3, ...` (the curve read in order, saturating at the last
entry), which is non-decreasing; and from ANY handler state `w` — in
particular mid-run, where the non-reset branch would return 2 or 3 — an
event with a changed direction identifier or with a gap exceeding
`minGapSeconds` makes `calculate_speed` return 1 and restart the run. -/
theorem C8_acceleration (s w : AccelState) (es : List (ℚ × ℤ)) (t : ℚ) (b : ℤ)
    (hcurve : s.curve = [1, 1, 2, 2, 3]) (hstart : s.count = 1)
    (hrun : fastRun s es = true) :
    (accelOutputs s es = (List.range es.length).map curveVal ∧
     (accelOutputs s es).Pairwise (· ≤ ·)) ∧
    ((b ≠ w.lastButton ∨ t - w.lastTime > w.minClick) →
      (calculateSpeed w t b).2 = 1 ∧ (calculateSpeed w t b).1.count = 1 ∧
      (calculateSpeed w t b).1.firstTime = t) := by
  have hout : accelOutputs s es = (List.range es.length).map curveVal := by
    rw [accelOutputs_fastRun es s hcurve hrun (by omega), hstart]
    apply List.map_congr_left
    intro i _
    congr 1
    omega
  constructor
  · refine ⟨hout, ?_⟩
    rw [hout]
    exact (List.pairwise_lt_range _).map curveVal
      (fun a b hab => curveVal_mono (le_of_lt hab))
  · intro hreset
    unfold calculateSpeed
    rw [if_pos ?cond]
    case cond =>
      rcases hreset with h | h
      · exact Or.inl (fun he => h he.symm)
      · exact Or.inr (Or.inr h)
    exact ⟨rfl, rfl, rfl⟩

/-- Fresh acceleration handler just after a reset at t = 0 with button 2. -/
def accel0 : AccelState :=
  { minClick := 1, maxPerClickAvg := 1, curve := [1, 1, 2, 2, 3],
    lastButton := 2, lastTime := 0, firstTime := 0, distance := 1, count := 1 }

/-- Two fast same-direction events following the reset. -/
def accelEvents : List (ℚ × ℤ) := [(1/2, 2), (1, 2)]

/-- Handler state in the middle of an accelerated run: four fast clicks on
button 2 already counted, so the next fast same-direction event would
return `curve[3] = 2`. -/
def accelMid : AccelState :=
  { minClick := 1, maxPerClickAvg := 1, curve := [1, 1, 2, 2, 3],
    lastButton := 2, lastTime := 10, firstTime := 9, distance := 2, count := 4 }

/-- Witness for C8: the two fast events after a reset yield steps `[1, 1]`,
and a direction change (button 3) hitting the mid-run state `accelMid`
returns 1 and restarts the run instead of continuing at step 2. -/
theorem C8_acceleration_witness :
    fastRun accel0 accelEvents = true ∧
    accelOutputs accel0 accelEvents = [1, 1] ∧
    accelMid.count = 4 ∧
    (calculateSpeed accelMid (21/2) 3).2 = 1 ∧
    (calculateSpeed accelMid (21/2) 3).1.count = 1 ∧
    (calculateSpeed accelMid (21/2) 3).1.firstTime = 21/2 := by
  have hrun : fastRun accel0 accelEvents = true := by
    norm_num [fastRun, calculateSpeed, accel0, accelEvents]
  have h := C8_acceleration accel0 accelMid accelEvents (21/2) 3 rfl rfl hrun
  have hreset := h.2 (Or.inl (by norm_num [accelMid]))
  refine ⟨hrun, ?_, rfl, hreset.1, hreset.2.1, hreset.2.2⟩
  rw [h.1.1]
  rfl

/-! ## Process watchdog (PowerOnOff/glm_manager.py) -/

/-- Observable events of one watchdog iteration: a forced kill of the
supervised process, a restart attempt (`_restart_glm`), and an invocation
of the registered resync callback with the new process id. -/
inductive WdEvent where
  | kill
  | restart
  | resync (pid : ℕ)
deriving DecidableEq, Repr

/-- What the outside world answers during one watchdog iteration:
`is_alive()`, `is_responding()`, whether `_start_glm()` succeeds, the pid
of `self._process` after the restart (`none` models a missing process),
and whether a `reinit_callback` is registered. -/
structure WatchdogEnv where
  alive : Bool
  responding : Bool
  restartOk : Bool
  newPid : Option ℕ
  hasCallback : Bool
deriving DecidableEq, Repr

/-- Model of `GlmManager._restart_glm`: start GLM, invoke the resync callback once
with the new pid when the start succeeded, a callback is registered and a
process handle exists, and reset the non-responsive streak to zero.
Returns the new streak and the emitted events. -/
def restartGlm (env : WatchdogEnv) : ℕ × List WdEvent :=
  let resync : List WdEvent :=
    if env.restartOk = true ∧ env.hasCallback = true then
      match env.newPid with
      | some pid => [WdEvent.resync pid]
      | none => []
    else []
  (0, WdEvent.restart :: resync)

/-- One iteration of `GlmManager._watchdog_loop` with non-responsive
streak `streak` and threshold `maxNonResponsive`: restart when the process
is gone; otherwise count non-responsive checks, and kill-and-restart once
the streak reaches the threshold; any responsive check resets the streak. -/
def watchdogStep (maxNonResponsive : ℕ) (streak : ℕ) (env : WatchdogEnv) :
    ℕ × List WdEvent :=
  if env.alive = false then restartGlm env
  else if env.responding = false then
    let s := streak + 1
    if maxNonResponsive ≤ s then
      let r := restartGlm env
      (r.1, WdEvent.kill :: r.2)
    else (s, [])
  else (0, [])

/-! ## Claim theorems: watchdog -/

/-- Claim C9: in the watchdog loop, a non-responsive streak reaching the
configured threshold triggers a forced kill followed by a restart (and the
streak is reset); a streak below the threshold just counts up without any
kill or restart; any responsive check resets the streak to zero; a dead
process triggers a restart directly; and whenever a restart succeeds with a
registered callback and a live process handle, the resync callback is
invoked exactly once, with the new process id. -/
theorem C9_watchdog (m streak : ℕ) (env : WatchdogEnv) (pid : ℕ) :
    (env.alive = true → env.responding = true → watchdogStep m streak env = (0, [])) ∧
    (env.alive = true → env.responding = false → streak + 1 < m →
      watchdogStep m streak env = (streak + 1, [])) ∧
    (env.alive = true → env.responding = false → m ≤ streak + 1 →
      watchdogStep m streak env = (0, WdEvent.kill :: (restartGlm env).2)) ∧
    (env.alive = false → watchdogStep m streak env = restartGlm env) ∧
    (env.restartOk = true → env.hasCallback = true → env.newPid = some pid →
      (restartGlm env).2 = [WdEvent.restart, WdEvent.resync pid] ∧
      ((restartGlm env).2.count (WdEvent.resync pid) = 1) ∧ (restartGlm env).1 = 0) := by
  refine ⟨?_, ?_, ?_, ?_, ?_⟩
  · intro ha hr
    unfold watchdogStep
    rw [ha, hr]
    rfl
  · intro ha hr hlt
    unfold watchdogStep
    rw [ha, hr]
    rw [if_neg (by decide : ¬(true = false)), if_pos rfl]
    dsimp only
    rw [if_neg (by omega)]
  · intro ha hr hge
    unfold watchdogStep
    rw [ha, hr]
    rw [if_neg (by decide : ¬(true = false)), if_pos rfl]
    dsimp only
    rw [if_pos hge]
    rfl
  · intro ha
    unfold watchdogStep
    rw [ha]
    rfl
  · intro hok hcb hpid
    unfold restartGlm
    rw [if_pos ⟨hok, hcb⟩, hpid]
    refine ⟨rfl, ?_, rfl⟩
    simp [List.count_cons]

/-- Environment for the C9 witness: process alive but hung, restart
succeeds, callback registered, new pid 4242. -/
def wdEnv : WatchdogEnv :=
  { alive := true, responding := false, restartOk := true,
    newPid := some 4242, hasCallback := true }

/-- Witness for C9: with threshold 6 and streak 5, the sixth consecutive
non-responsive check kills and restarts, resets the streak, and fires the
resync callback exactly once with pid 4242. -/
theorem C9_watchdog_witness :
    watchdogStep 6 5 wdEnv =
      (0, [WdEvent.kill, WdEvent.restart, WdEvent.resync 4242]) ∧
    ((restartGlm wdEnv).2.count (WdEvent.resync 4242) = 1) := by
  have h := C9_watchdog 6 5 wdEnv 4242
  have h3 := h.2.2.1 rfl rfl (by omega)
  have h5 := h.2.2.2.2 rfl rfl rfl
  refine ⟨?_, h5.2.1⟩
  rw [h3, h5.1]

end VolBridge
